import Mathlib

/-!
# BrewyBackend — shallow embedding and verification

This file embeds the order/payment/shipment lifecycle layer of the
BrewyBackend e-commerce service (TypeScript/Express/Mongoose) as
executable Lean definitions, and proves properties of the embedded
routes.

Modelling conventions:
* The document store is a `List` of records; `findOne` and
  `findOneAndUpdate` are recursive functions over that list that update
  the first record matching the business key, mirroring Mongoose
  behaviour on a single collection.
* JavaScript falsy checks on strings (`!x`) are modelled as equality
  with the empty string; absent optional object fields are `Option`.
* Monetary amounts, prices, weights and dimensions are `Rat`
  (the code uses JS numbers; the claims under verification concern
  exact arithmetic identities, so rationals are the faithful carrier).
* HMAC-SHA256 and JSON serialization are abstract parameters
  (`String → String → String` and payload serializers): the claims
  quantify over them, never computing a digest.
* External collaborators (Razorpay, Shiprocket) are parameters
  producing a `Collab` outcome; routes are parameterized by that
  outcome, mirroring the awaited call result.
-/

namespace Brewy

/-- Order status enum from `src/models/Order.ts`. -/
inductive OrderStatus where
  | created
  | paid
  | failed
  | shipped
  | delivered
deriving DecidableEq, Repr

/-- Customer address snapshot (`src/models/Order.ts`). -/
structure Address where
  line1 : String
  line2 : Option String
  city : String
  state : String
  pincode : String
  country : String
deriving DecidableEq, Repr

/-- Customer contact snapshot (`src/models/Order.ts`). -/
structure Customer where
  name : String
  email : String
  phone : String
  address : Address
deriving DecidableEq, Repr

/-- Order line item (`src/models/Order.ts`). `variantId = ""` stands for a
falsy/absent variant id in the JS code. -/
structure OrderItem where
  productId : String
  variantId : String
  name : String
  quantity : Nat
  price : Rat
deriving DecidableEq, Repr

/-- The Order document (`src/models/Order.ts`). Timestamps are omitted:
no claim mentions them. -/
structure Order where
  orderId : String
  razorpayOrderId : String
  razorpayPaymentId : Option String
  razorpaySignature : Option String
  amount : Rat
  currency : String
  status : OrderStatus
  customer : Customer
  items : List OrderItem
  shiprocketOrderId : Option String
  shiprocketShipmentId : Option String
  trackingUrl : Option String
deriving DecidableEq, Repr

/-- Physical dimensions subdocument (`src/models/Product.ts`). -/
structure Dimensions where
  length : Rat
  breadth : Rat
  height : Rat
  weight : Rat
deriving DecidableEq, Repr

/-- Product variant subdocument (`src/models/Product.ts`). -/
structure Variant where
  id : String
  title : String
  price : Rat
  availableForSale : Bool
  sku : String
deriving DecidableEq, Repr

/-- The Product document (`src/models/Product.ts`). -/
structure Product where
  id : String
  name : String
  flavor : String
  price : Rat
  description : String
  handle : String
  images : List String
  stock : Nat
  availableForSale : Bool
  variants : List Variant
  dimensions : Option Dimensions
deriving DecidableEq, Repr

/-- The Collection document (`src/models/Collection.ts`). -/
structure Collection where
  id : String
  name : String
  handle : String
  description : String
  productIds : List String
  image : Option String
deriving DecidableEq, Repr

/-- `Order.findOne({ orderId })`: first order whose business key matches. -/
def findOrder : List Order → String → Option Order
  | [], _ => none
  | o :: rest, oid => if o.orderId = oid then some o else findOrder rest oid

/-- `Order.findOneAndUpdate({ orderId }, update, { new: true })`: update the
first matching document, returning the new list and the updated document. -/
def findOneAndUpdate : List Order → String → (Order → Order) → List Order × Option Order
  | [], _, _ => ([], none)
  | o :: rest, oid, f =>
    if o.orderId = oid then (f o :: rest, some (f o))
    else
      let r := findOneAndUpdate rest oid f
      (o :: r.1, r.2)

/-- `Product.findOne({ id })`. -/
def findProduct : List Product → String → Option Product
  | [], _ => none
  | p :: rest, pid => if p.id = pid then some p else findProduct rest pid

/-- Generic handler outcome: `ok` carries the JSON payload of a success
response, `err` carries the HTTP status code and error message. -/
inductive ApiResult (α : Type) where
  | ok : α → ApiResult α
  | err : Nat → String → ApiResult α
deriving DecidableEq, Repr

/-- Outcome of an awaited external collaborator call. -/
inductive Collab (α : Type) where
  | ok : α → Collab α
  | fail : String → Collab α
deriving DecidableEq, Repr

/-! ## Order mutation routes (src/routes/orders.ts, unnamed payment router) -/

/-- `PATCH /:orderId/status` (src/routes/orders.ts): writes the requested
status unconditionally via `findOneAndUpdate`; 404 when the order id is
unknown. -/
def updateOrderStatusRoute (db : List Order) (oid : String) (s : OrderStatus) :
    List Order × ApiResult Order :=
  let r := findOneAndUpdate db oid (fun o => { o with status := s })
  (r.1, match r.2 with
    | some o => .ok o
    | none => .err 404 "Order not found")

/-- `PATCH /:orderId/payment` (src/routes/orders.ts): stores the payment
references and sets `status || 'paid'` unconditionally. -/
def updateOrderPaymentRoute (db : List Order) (oid : String)
    (razorpayPaymentId razorpaySignature : String) (s : Option OrderStatus) :
    List Order × ApiResult Order :=
  let r := findOneAndUpdate db oid (fun o =>
    { o with
      razorpayPaymentId := some razorpayPaymentId,
      razorpaySignature := some razorpaySignature,
      status := s.getD .paid })
  (r.1, match r.2 with
    | some o => .ok o
    | none => .err 404 "Order not found")

/-- `PATCH /:orderId/shipment` (src/routes/orders.ts): stores shipment
references and sets `status: 'shipped'` unconditionally. -/
def updateOrderShipmentRoute (db : List Order) (oid : String)
    (shiprocketOrderId shiprocketShipmentId trackingUrl : String) :
    List Order × ApiResult Order :=
  let r := findOneAndUpdate db oid (fun o =>
    { o with
      shiprocketOrderId := some shiprocketOrderId,
      shiprocketShipmentId := some shiprocketShipmentId,
      trackingUrl := some trackingUrl,
      status := .shipped })
  (r.1, match r.2 with
    | some o => .ok o
    | none => .err 404 "Order not found")

/-- Abstract HMAC-SHA256 hex digest: `hmac secret message`. -/
abbrev HmacFn := String → String → String

/-- `verifyRazorpayPayment` (services/razorpay): the expected signature is
the HMAC-SHA256 hex digest of `orderId + "|" + paymentId` under the
server-held key secret, compared with the supplied signature. -/
def verifyRazorpayPayment (hmac : HmacFn) (secret : String)
    (razorpayOrderId razorpayPaymentId razorpaySignature : String) : Bool :=
  hmac secret (razorpayOrderId ++ "|" ++ razorpayPaymentId) == razorpaySignature

/-- Body of `POST /verify-payment`. `""` models a missing (falsy) field;
`orderId` is the optional internal id, defaulting to the Razorpay id. -/
structure VerifyPaymentBody where
  razorpayOrderId : String
  razorpayPaymentId : String
  razorpaySignature : String
  orderId : String
deriving DecidableEq, Repr

/-- `POST /verify-payment` (unnamed payment router): reject missing fields,
then reject an invalid signature before any store write, then mark the
order paid. -/
def verifyPaymentRoute (hmac : HmacFn) (secret : String) (db : List Order)
    (b : VerifyPaymentBody) : List Order × ApiResult Order :=
  if b.razorpayOrderId = "" ∨ b.razorpayPaymentId = "" ∨ b.razorpaySignature = "" then
    (db, .err 400 "Missing payment verification data")
  else if verifyRazorpayPayment hmac secret b.razorpayOrderId b.razorpayPaymentId
      b.razorpaySignature then
    let r := findOneAndUpdate db (if b.orderId = "" then b.razorpayOrderId else b.orderId)
      (fun o =>
        { o with
          razorpayPaymentId := some b.razorpayPaymentId,
          razorpaySignature := some b.razorpaySignature,
          status := .paid })
    (r.1, match r.2 with
      | some o => .ok o
      | none => .err 404 "Order not found")
  else
    (db, .err 400 "Invalid payment signature")

/-- Body of the Faster Checkout webhook (`POST /webhook` in the
faster-checkout router). `""` models an absent field. -/
structure FasterWebhookBody where
  order_id : String
  payment_status : String
  shipment_status : String
  tracking_url : String
deriving DecidableEq, Repr

/-- The status field of the webhook update object: a present
`payment_status` maps to `paid`/`failed`; a `shipment_status` of
`shipped` or `delivered` overrides it; otherwise no status is written. -/
def fasterWebhookStatus (b : FasterWebhookBody) : Option OrderStatus :=
  let fromPayment : Option OrderStatus :=
    if b.payment_status = "" then none
    else some (if b.payment_status = "paid" then .paid else .failed)
  if b.shipment_status = "shipped" then some .shipped
  else if b.shipment_status = "delivered" then some .delivered
  else fromPayment

/-- `POST /webhook` (faster-checkout router): applies the payload-driven
partial update to the order, with no check of the current status. -/
def fasterWebhookRoute (db : List Order) (b : FasterWebhookBody) :
    List Order × ApiResult Order :=
  if b.order_id = "" then (db, .err 400 "Invalid webhook data")
  else
    let r := findOneAndUpdate db b.order_id (fun o =>
      { o with
        status := (fasterWebhookStatus b).getD o.status,
        trackingUrl := if b.tracking_url = "" then o.trackingUrl else some b.tracking_url })
    (r.1, match r.2 with
      | some o => .ok o
      | none => .err 404 "Order not found")

/-- `POST /cancel` (faster-checkout router and shipment router share this
shape): after a successful collaborator cancel call, set status `failed`
unconditionally; the update result is not inspected. -/
def cancelOrderRoute (db : List Order) (oid : String) (collab : Collab Unit) :
    List Order × ApiResult Unit :=
  if oid = "" then (db, .err 400 "Order ID is required")
  else
    match collab with
    | .fail e => (db, .err 500 e)
    | .ok _ => ((findOneAndUpdate db oid (fun o => { o with status := .failed })).1, .ok ())

/-! ## Shipment creation (src/routes/shipment.ts) -/

/-- A Shiprocket order line (`order_items` entry). -/
structure SRItem where
  name : String
  sku : String
  units : Nat
  selling_price : Rat
  discount : Rat
deriving DecidableEq, Repr

/-- Accumulator of the per-item loop in `POST /shipment/create`:
`orderItems` collects the lines, `totalWeight` starts at 0 and the three
per-axis maxima start at the default 10. -/
structure Agg where
  orderItems : List SRItem
  totalWeight : Rat
  maxLength : Rat
  maxBreadth : Rat
  maxHeight : Rat
deriving DecidableEq, Repr

/-- One iteration of the loop: items whose product id no longer resolves
are skipped entirely; `x || d` on a JS number is modelled as
`if x = 0 then d else x`. -/
def aggStep (products : List Product) (acc : Agg) (it : OrderItem) : Agg :=
  match findProduct products it.productId with
  | none => acc
  | some p =>
    let acc : Agg :=
      { acc with
        orderItems := acc.orderItems ++
          [{ name := it.name,
             sku := if it.variantId = "" then it.productId else it.variantId,
             units := it.quantity,
             selling_price := it.price,
             discount := 0 }] }
    match p.dimensions with
    | some d =>
      { acc with
        totalWeight := acc.totalWeight +
          (if d.weight = 0 then 0.5 else d.weight) * it.quantity,
        maxLength := max acc.maxLength (if d.length = 0 then 10 else d.length),
        maxBreadth := max acc.maxBreadth (if d.breadth = 0 then 10 else d.breadth),
        maxHeight := max acc.maxHeight (if d.height = 0 then 10 else d.height) }
    | none =>
      { acc with totalWeight := acc.totalWeight + 0.5 * it.quantity }

/-- The whole loop over the order items. -/
def aggregateItems (products : List Product) (items : List OrderItem) : Agg :=
  items.foldl (aggStep products) ⟨[], 0, 10, 10, 10⟩

/-- The payload sent to `createShiprocketOrder` (billing block derived from
the customer snapshot exactly as in the source). -/
structure ShiprocketOrderData where
  order_id : String
  order_date : String
  pickup_location : String
  billing_customer_name : String
  billing_last_name : String
  billing_address : String
  billing_address_2 : String
  billing_city : String
  billing_pincode : String
  billing_state : String
  billing_country : String
  billing_email : String
  billing_phone : String
  shipping_is_billing : Bool
  order_items : List SRItem
  payment_method : String
  sub_total : Rat
  length : Rat
  breadth : Rat
  height : Rat
  weight : Rat
deriving DecidableEq, Repr

/-- Builds the Shiprocket payload from an order and the aggregated
package data; `name.split(' ')[0] || name` and
`split(' ').slice(1).join(' ') || ''` are rendered with `splitOn`. -/
def buildShiprocketData (o : Order) (pickupLocation today : String) (agg : Agg) :
    ShiprocketOrderData :=
  let parts := o.customer.name.splitOn " "
  { order_id := o.orderId,
    order_date := today,
    pickup_location := if pickupLocation = "" then "Primary" else pickupLocation,
    billing_customer_name :=
      if parts.headD "" = "" then o.customer.name else parts.headD "",
    billing_last_name := String.intercalate " " (parts.drop 1),
    billing_address := o.customer.address.line1,
    billing_address_2 := (o.customer.address.line2).getD "",
    billing_city := o.customer.address.city,
    billing_pincode := o.customer.address.pincode,
    billing_state := o.customer.address.state,
    billing_country := o.customer.address.country,
    billing_email := o.customer.email,
    billing_phone := o.customer.phone,
    shipping_is_billing := true,
    order_items := agg.orderItems,
    payment_method := "Prepaid",
    sub_total := o.amount,
    length := agg.maxLength,
    breadth := agg.maxBreadth,
    height := agg.maxHeight,
    weight := agg.totalWeight }

/-- `POST /shipment/create`: guard the order id, look the order up, require
status `paid`, aggregate the package, call the collaborator with the
payload, and on success save the order with status `shipped`.  The
collaborator result carries the optional Shiprocket order and shipment
ids (`result.orderId?.toString()`). -/
def createShipmentRoute (products : List Product) (db : List Order)
    (oid pickupLocation today : String)
    (collab : ShiprocketOrderData → Collab (Option String × Option String)) :
    List Order × ApiResult Order :=
  if oid = "" then (db, .err 400 "Order ID is required")
  else
    match findOrder db oid with
    | none => (db, .err 404 "Order not found")
    | some o =>
      if o.status ≠ .paid then
        (db, .err 400 "Order must be paid before creating shipment")
      else
        let agg := aggregateItems products o.items
        let payload := buildShiprocketData o pickupLocation today agg
        match collab payload with
        | .fail e => (db, .err 500 e)
        | .ok (srOid, srSid) =>
          let o2 := { o with
            shiprocketOrderId := srOid,
            shiprocketShipmentId := srSid,
            status := .shipped }
          ((findOneAndUpdate db oid (fun _ => o2)).1, .ok o2)

/-! ## Checkout session creation (faster-checkout router, payment router) -/

/-- Observable events of a session-creation execution: a database save of
an order (with the status it is saved in) or a call to the external
collaborator.  The emitted trace records their order. -/
inductive Ev where
  | save : String → OrderStatus → Ev
  | collab : Ev
deriving DecidableEq, Repr

/-- The per-item validation loop of `POST /create` (faster-checkout
router): looks each product up by the client-sent product id, fails 404
when absent and 400 when not available for sale, and otherwise
accumulates the server-held price times quantity and the collaborator
product line. -/
def buildFasterProducts (products : List Product) :
    List OrderItem → Except (Nat × String) (Rat × List SRItem)
  | [] => .ok (0, [])
  | it :: rest =>
    match findProduct products it.productId with
    | none => .error (404, "Product " ++ it.productId ++ " not found")
    | some p =>
      if p.availableForSale then
        match buildFasterProducts products rest with
        | .error e => .error e
        | .ok (t, l) =>
          .ok (p.price * it.quantity + t,
            { name := p.name,
              sku := if it.variantId = "" then p.id else it.variantId,
              units := it.quantity,
              selling_price := p.price,
              discount := 0 } :: l)
      else .error (400, "Product " ++ p.name ++ " is not available")

/-- The per-item validation loop of `POST /create-order` (payment router):
same lookup and guards, accumulating only the server-held total. -/
def calculateOrderTotal (products : List Product) :
    List OrderItem → Except (Nat × String) Rat
  | [] => .ok 0
  | it :: rest =>
    match findProduct products it.productId with
    | none => .error (404, "Product " ++ it.productId ++ " not found")
    | some p =>
      if p.availableForSale then
        match calculateOrderTotal products rest with
        | .error e => .error e
        | .ok t => .ok (p.price * it.quantity + t)
      else .error (400, "Product " ++ p.name ++ " is not available")

/-- Body of `POST /create` (faster-checkout router); `none` models an
absent field, `pickupPincode = ""` a falsy one. -/
structure FasterCreateBody where
  items : Option (List OrderItem)
  customer : Option Customer
  pickupPincode : String
deriving DecidableEq, Repr

/-- Success payload of `createFasterCheckout`; `checkout_id = ""` models a
falsy checkout id. -/
structure FasterCollabOk where
  checkout_id : String
  checkout_url : String
deriving DecidableEq, Repr

/-- `POST /create` (faster-checkout router): validate the fields and the
items, save the order with status `created`, then call the
collaborator; on collaborator failure respond 500 WITHOUT rolling the
saved order back; on success save the checkout id into the order.
Returns the new store, the event trace and the response. -/
def fasterCreateRoute (products : List Product) (db : List Order)
    (b : FasterCreateBody) (now : String)
    (collab : Rat → List SRItem → Collab FasterCollabOk) :
    List Order × List Ev × ApiResult (String × Rat) :=
  match b.items, b.customer with
  | some items, some customer =>
    if b.pickupPincode = "" then (db, [], .err 400 "Missing required fields")
    else
      match buildFasterProducts products items with
      | .error (n, msg) => (db, [], .err n msg)
      | .ok (totalAmount, prods) =>
        let oid := "BREWY_" ++ now
        let order : Order :=
          { orderId := oid,
            razorpayOrderId := oid,
            razorpayPaymentId := none,
            razorpaySignature := none,
            amount := totalAmount,
            currency := "INR",
            status := .created,
            customer := customer,
            items := items,
            shiprocketOrderId := none,
            shiprocketShipmentId := none,
            trackingUrl := none }
        let db1 := db ++ [order]
        match collab totalAmount prods with
        | .fail e => (db1, [.save oid .created, .collab], .err 500 e)
        | .ok r =>
          let order2 := { order with
            razorpayOrderId := if r.checkout_id = "" then oid else r.checkout_id }
          ((findOneAndUpdate db1 oid (fun _ => order2)).1,
           [.save oid .created, .collab, .save oid .created],
           .ok (oid, totalAmount))
  | _, _ => (db, [], .err 400 "Missing required fields")

/-- Body of `POST /create-order` (payment router). `amount` is the
client-submitted amount (0 models falsy/absent), `currency = ""` an
absent currency. -/
structure CreateOrderBody where
  amount : Rat
  currency : String
  items : Option (List OrderItem)
  customer : Option Customer
deriving DecidableEq, Repr

/-- Success payload of `createRazorpayOrder`. -/
structure RazorpayOrderOk where
  id : String
  currency : String
deriving DecidableEq, Repr

/-- `POST /create-order` (payment router): validate, compute the
server-held total, call the Razorpay collaborator FIRST, and only on
collaborator success save the order with status `created`.  On
collaborator failure nothing is persisted. -/
def createOrderRoute (products : List Product) (db : List Order)
    (b : CreateOrderBody) (now : String)
    (collab : Rat → Collab RazorpayOrderOk) :
    List Order × List Ev × ApiResult (String × Rat) :=
  match b.items, b.customer with
  | some items, some customer =>
    if b.amount = 0 then (db, [], .err 400 "Missing required fields")
    else
      match calculateOrderTotal products items with
      | .error (n, msg) => (db, [], .err n msg)
      | .ok calculatedTotal =>
        let oid := "ORD_" ++ now
        match collab calculatedTotal with
        | .fail e => (db, [.collab], .err 500 e)
        | .ok r =>
          let order : Order :=
            { orderId := oid,
              razorpayOrderId := r.id,
              razorpayPaymentId := none,
              razorpaySignature := none,
              amount := calculatedTotal,
              currency := if b.currency = "" then "INR" else b.currency,
              status := .created,
              customer := customer,
              items := items,
              shiprocketOrderId := none,
              shiprocketShipmentId := none,
              trackingUrl := none }
          (db ++ [order], [.collab, .save oid .created], .ok (oid, calculatedTotal))
  | _, _ => (db, [], .err 400 "Missing required fields")

/-! ## Catalog webhooks (src/routes/shiprocket-webhooks.ts) -/

/-- Webhook request headers; `none` models an absent header. -/
structure WebhookHeaders where
  apiKey : Option String
  signature : Option String
deriving DecidableEq, Repr

/-- Server-held webhook configuration: the shared API key, the HMAC
secret (`SHIPROCKET_API_SECRET || ''`) and the abstract HMAC-SHA256 hex
digest function. -/
structure WebhookEnv where
  serverApiKey : String
  serverSecret : String
  hmacHex : HmacFn

/-- JS falsiness of a header value: absent or the empty string. -/
def isFalsyHeader (h : Option String) : Bool := h.getD "" == ""

/-- The `verifyHMAC` middleware: reject when either header is falsy,
when the API key differs from the server-held key, or when the hex
HMAC-SHA256 of the serialized body under the server secret differs
from the claimed signature; otherwise pass the request through. -/
def verifyHMAC (env : WebhookEnv) (h : WebhookHeaders) (rawBody : String) :
    Option (Nat × String) :=
  if isFalsyHeader h.signature || isFalsyHeader h.apiKey then
    some (401, "Missing authentication headers")
  else if h.apiKey.getD "" ≠ env.serverApiKey then
    some (401, "Invalid API key")
  else if env.hmacHex env.serverSecret rawBody ≠ h.signature.getD "" then
    some (401, "Invalid HMAC signature")
  else
    none

/-- Collapse every whitespace run into a single hyphen
(`.replace(/\s+/g, '-')`); the flag records being inside a run. -/
def collapseWS : Bool → List Char → List Char
  | _, [] => []
  | inRun, c :: rest =>
    if c.isWhitespace then
      if inRun then collapseWS true rest
      else '-' :: collapseWS true rest
    else c.toLower :: collapseWS false rest

/-- Handle-slug derivation:
`name.toLowerCase().replace(/\s+/g, '-')`. -/
def slugify (s : String) : String :=
  String.mk (collapseWS false s.data)

/-- Inbound partner variant payload. String fields use `""` for absent;
`price` and `weight` carry the `parseFloat` result of the partner string
(`none` = absent or unparsable, which the code folds to its default). -/
structure VariantPayload where
  id : String
  title : String
  price : Option Rat
  quantity : Option Nat
  sku : String
  weight : Option Rat
  imageSrc : String
deriving DecidableEq, Repr

/-- Inbound partner product payload (Shiprocket/Shopify shape; it carries
no handle field). -/
structure ProductPayload where
  id : String
  title : String
  body_html : String
  product_type : String
  status : String
  variants : List VariantPayload
  imageSrc : String
deriving DecidableEq, Repr

/-- The partial update object (`updateData`) built by the product
webhook; `none` fields are left untouched by the upsert. -/
structure ProductUpdate where
  id : String
  name : String
  description : String
  flavor : String
  availableForSale : Bool
  price : Option Rat
  stock : Option Nat
  variants : Option (List Variant)
  dimensions : Option Dimensions
  images : Option (List String)
  handle : Option String
deriving DecidableEq, Repr

/-- Transform of the inbound partner product payload into `updateData`
(`POST /product` lines 136-185): base fields, then primary-variant
derived fields, then the image fallback, then the handle derivation —
whose guard `!updateData.handle` inspects the update object itself,
which never carries a handle, so the slug is written whenever the name
is nonempty. -/
def toProductUpdateCore (pd : ProductPayload) : ProductUpdate :=
  let base : ProductUpdate :=
    { id := pd.id,
      name := pd.title,
      description := pd.body_html,
      flavor := if pd.product_type = "" then "Beverages" else pd.product_type,
      availableForSale := pd.status == "active",
      price := none, stock := none, variants := none,
      dimensions := none, images := none, handle := none }
  let u : ProductUpdate :=
    match pd.variants with
    | [] => base
    | pv :: _ =>
      let u1 : ProductUpdate :=
        { base with
          price := some (pv.price.getD 0),
          stock := some (pv.quantity.getD 0),
          variants := some (pd.variants.map (fun v =>
            { id := v.id,
              title := v.title,
              price := v.price.getD 0,
              availableForSale := base.availableForSale,
              sku := if v.sku = "" then v.id else v.sku })) }
      let u2 : ProductUpdate :=
        match pv.weight with
        | some w =>
          { u1 with dimensions := some ⟨10, 10, 10, if w = 0 then 0.5 else w⟩ }
        | none => u1
      if pv.imageSrc = "" then u2 else { u2 with images := some [pv.imageSrc] }
  if pd.imageSrc ≠ "" ∧ u.images = none then { u with images := some [pd.imageSrc] }
  else u

/-- The final handle-derivation step of the product webhook transform:
`if (!updateData.handle && updateData.name) updateData.handle = slug`. -/
def withProductHandle (u : ProductUpdate) : ProductUpdate :=
  if u.handle = none ∧ u.name ≠ "" then { u with handle := some (slugify u.name) }
  else u

/-- The complete `updateData` of the product webhook. -/
def toProductUpdate (pd : ProductPayload) : ProductUpdate :=
  withProductHandle (toProductUpdateCore pd)

/-- Applying `updateData` to a stored product: present fields replace the
stored values, absent optional fields keep them. -/
def applyProductUpdate (p : Product) (u : ProductUpdate) : Product :=
  { id := u.id,
    name := u.name,
    description := u.description,
    flavor := u.flavor,
    availableForSale := u.availableForSale,
    price := u.price.getD p.price,
    stock := u.stock.getD p.stock,
    variants := u.variants.getD p.variants,
    dimensions := match u.dimensions with
      | some d => some d
      | none => p.dimensions,
    images := u.images.getD p.images,
    handle := u.handle.getD p.handle }

/-- Inserting a fresh product from `updateData` (upsert miss): absent
fields take the schema defaults (validators are disabled). -/
def newProductFromUpdate (u : ProductUpdate) : Product :=
  { id := u.id,
    name := u.name,
    description := u.description,
    flavor := u.flavor,
    availableForSale := u.availableForSale,
    price := u.price.getD 0,
    stock := u.stock.getD 0,
    variants := u.variants.getD [],
    dimensions := u.dimensions,
    images := u.images.getD [],
    handle := u.handle.getD "" }

/-- `Product.findOneAndUpdate({ id }, updateData, { upsert: true })`. -/
def upsertProduct : List Product → ProductUpdate → List Product
  | [], u => [newProductFromUpdate u]
  | p :: rest, u =>
    if p.id = u.id then applyProductUpdate p u :: rest
    else p :: upsertProduct rest u

/-- `POST /product`: the HMAC middleware gates the upsert; the serializer
parameter stands for `JSON.stringify(req.body)`. -/
def productWebhookRoute (env : WebhookEnv) (serialize : ProductPayload → String)
    (db : List Product) (h : WebhookHeaders) (body : ProductPayload) :
    List Product × ApiResult String :=
  match verifyHMAC env h (serialize body) with
  | some (n, msg) => (db, .err n msg)
  | none => (upsertProduct db (toProductUpdate body), .ok body.id)

/-- Inbound partner collection payload (no handle field either). -/
structure CollectionPayload where
  id : String
  title : String
  body_html : String
  imageSrc : String
deriving DecidableEq, Repr

/-- The partial update object built by the collection webhook. -/
structure CollectionUpdate where
  id : String
  name : String
  description : String
  image : Option String
  handle : Option String
deriving DecidableEq, Repr

/-- Transform of the inbound collection payload (`POST /collection` lines
282-297), with the same always-true handle guard. -/
def toCollectionUpdateCore (cd : CollectionPayload) : CollectionUpdate :=
  let base : CollectionUpdate :=
    { id := cd.id,
      name := cd.title,
      description := cd.body_html,
      image := none, handle := none }
  if cd.imageSrc = "" then base else { base with image := some cd.imageSrc }

/-- The final handle-derivation step of the collection webhook transform. -/
def withCollectionHandle (u : CollectionUpdate) : CollectionUpdate :=
  if u.handle = none ∧ u.name ≠ "" then { u with handle := some (slugify u.name) }
  else u

/-- The complete `updateData` of the collection webhook. -/
def toCollectionUpdate (cd : CollectionPayload) : CollectionUpdate :=
  withCollectionHandle (toCollectionUpdateCore cd)

/-- Applying the collection update to a stored collection. -/
def applyCollectionUpdate (c : Collection) (u : CollectionUpdate) : Collection :=
  { id := u.id,
    name := u.name,
    description := u.description,
    productIds := c.productIds,
    image := match u.image with
      | some i => some i
      | none => c.image,
    handle := u.handle.getD c.handle }

/-- Inserting a fresh collection from the update (upsert miss). -/
def newCollectionFromUpdate (u : CollectionUpdate) : Collection :=
  { id := u.id,
    name := u.name,
    description := u.description,
    productIds := [],
    image := u.image,
    handle := u.handle.getD "" }

/-- `Collection.findOneAndUpdate({ id }, updateData, { upsert: true })`. -/
def upsertCollection : List Collection → CollectionUpdate → List Collection
  | [], u => [newCollectionFromUpdate u]
  | c :: rest, u =>
    if c.id = u.id then applyCollectionUpdate c u :: rest
    else c :: upsertCollection rest u

/-- `POST /collection`: HMAC middleware, then upsert. -/
def collectionWebhookRoute (env : WebhookEnv)
    (serialize : CollectionPayload → String)
    (db : List Collection) (h : WebhookHeaders) (body : CollectionPayload) :
    List Collection × ApiResult String :=
  match verifyHMAC env h (serialize body) with
  | some (n, msg) => (db, .err n msg)
  | none => (upsertCollection db (toCollectionUpdate body), .ok body.id)

/-! ## Checkout token route (POST /generate-token, checkout router) -/

/-- An item of the checkout token request (`cart_data.items` entry). -/
structure CheckoutItemReq where
  variant_id : String
  quantity : Int
deriving DecidableEq, Repr

/-- The `cart_data` object; `items = none` models an absent items field. -/
structure CartData where
  items : Option (List CheckoutItemReq)
deriving DecidableEq, Repr

/-- The request body of `POST /generate-token`: `cart_data` may be absent,
`redirect_url = ""` models a falsy/absent url. -/
structure GenerateTokenBody where
  cart_data : Option CartData
  redirect_url : String
deriving DecidableEq, Repr

/-- `Product.findOne({ $or: [{ id: v }, { variants.id: v }] })`: the first
product whose own id or one of whose variant ids equals the requested
variant id. -/
def findProductByVariant : List Product → String → Option Product
  | [], _ => none
  | p :: rest, v =>
    if p.id == v || p.variants.any (fun vr => vr.id == v) then some p
    else findProductByVariant rest v

/-- The per-item validation loop of `POST /generate-token`: each
`variant_id` must resolve to a stored product (404 otherwise) that is
available for sale (400 otherwise); `none` means every item passed. -/
def validateCartItems (products : List Product) :
    List CheckoutItemReq → Option (Nat × String)
  | [] => none
  | it :: rest =>
    match findProductByVariant products it.variant_id with
    | none =>
      some (404, "Product with variant ID " ++ it.variant_id ++ " not found")
    | some p =>
      if p.availableForSale then validateCartItems products rest
      else some (400, "Product " ++ p.name ++ " is not available for sale")

/-- `POST /generate-token` (checkout router, tail of the products route
file; mounted at /api/checkout): guard the required fields, validate
every cart item against the product store, then request the access
token from the collaborator (`generateAccessToken`); on success respond
`success: true` with the token and message. The collaborator outcome is
a parameter; it is consulted only after validation passes. -/
def generateTokenRoute (products : List Product) (b : GenerateTokenBody)
    (collab : Collab String) : ApiResult (String × String) :=
  match b.cart_data with
  | none => .err 400 "Missing required fields: cart_data and redirect_url"
  | some cd =>
    match cd.items with
    | none => .err 400 "Missing required fields: cart_data and redirect_url"
    | some items =>
      if b.redirect_url = "" then
        .err 400 "Missing required fields: cart_data and redirect_url"
      else
        match validateCartItems products items with
        | some (n, msg) => .err n msg
        | none =>
          match collab with
          | .fail e => .err 500 e
          | .ok token => .ok (token, "Checkout token generated successfully")

/-! ## Specification-side restatements (for comparison with the code) -/

/-- The spec formula for the session amount: the sum over the items of
the SERVER-held product price times the quantity (0 for an unresolved
product — the routes reject such items before any total is used). -/
def itemsTotal (products : List Product) (items : List OrderItem) : Rat :=
  (items.map (fun it =>
    ((findProduct products it.productId).map (fun p => p.price * (it.quantity : Rat))).getD 0)).sum

/-- The weight one line item contributes to the package: product weight
times quantity, with the 0.5 default when the product lacks dimensions
(or stores a zero weight), and nothing when the product is missing. -/
def itemWeight (products : List Product) (it : OrderItem) : Rat :=
  match findProduct products it.productId with
  | none => 0
  | some p =>
    match p.dimensions with
    | none => 0.5 * it.quantity
    | some d => (if d.weight = 0 then 0.5 else d.weight) * it.quantity

/-- The spec formula for the package weight: Σ itemWeight. -/
def totalItemsWeight (products : List Product) (items : List OrderItem) : Rat :=
  (items.map (itemWeight products)).sum

/-- Modelled from the claim wording of C9: the per-item value of one
package axis — the stored dimension, substituting the default 10 for a
product lacking stored dimensions. -/
def claimedAxis (axis : Dimensions → Rat) (products : List Product)
    (it : OrderItem) : Rat :=
  match findProduct products it.productId with
  | none => 10
  | some p =>
    match p.dimensions with
    | none => 10
    | some d => axis d

/-- Modelled from the claim wording of C9: the package as the plain
per-axis maximum over the ordered items (length, breadth, height). -/
def claimedPackage (products : List Product) (items : List OrderItem) :
    Rat × Rat × Rat :=
  ((items.map (claimedAxis Dimensions.length products)).foldr max 0,
   (items.map (claimedAxis Dimensions.breadth products)).foldr max 0,
   (items.map (claimedAxis Dimensions.height products)).foldr max 0)

/-- The three rejection conditions of claim C3 on a webhook request:
either header absent (or falsy), API key mismatch, or HMAC mismatch. -/
def webhookAuthBad (env : WebhookEnv) (h : WebhookHeaders) (raw : String) : Prop :=
  isFalsyHeader h.signature = true ∨ isFalsyHeader h.apiKey = true
    ∨ h.apiKey.getD "" ≠ env.serverApiKey
    ∨ env.hmacHex env.serverSecret raw ≠ h.signature.getD ""

/-! ## Concrete fixtures (used by witnesses and counterexamples) -/

def sampleAddress : Address :=
  { line1 := "1 Lane", line2 := none, city := "Pune", state := "MH",
    pincode := "411001", country := "India" }

def sampleCustomer : Customer :=
  { name := "Asha Rao", email := "asha@example.com", phone := "9999999999",
    address := sampleAddress }

/-- Order line referencing the grape product, quantity 2. -/
def sampleItem : OrderItem :=
  { productId := "prod_grape", variantId := "", name := "Grape Brewy",
    quantity := 2, price := 49 }

/-- Order line referencing the default-cube product, quantity 1. -/
def cubeItem : OrderItem :=
  { productId := "prod_cube", variantId := "", name := "Cube",
    quantity := 1, price := 49 }

def sampleOrder (st : OrderStatus) : Order :=
  { orderId := "BREWY_1", razorpayOrderId := "BREWY_1",
    razorpayPaymentId := none, razorpaySignature := none,
    amount := 98, currency := "INR", status := st,
    customer := sampleCustomer, items := [sampleItem],
    shiprocketOrderId := none, shiprocketShipmentId := none,
    trackingUrl := none }

/-- Product with stored dimensions (6, 6, 12, 0.35). -/
def grapeProduct : Product :=
  { id := "prod_grape", name := "Grape Brewy", flavor := "Grape", price := 49,
    description := "grape soda", handle := "grape-brewy", images := [],
    stock := 10, availableForSale := true, variants := [],
    dimensions := some ⟨6, 6, 12, 0.35⟩ }

/-- Product with stored dimensions (10, 10, 10, 0.5). -/
def cubeProduct : Product :=
  { id := "prod_cube", name := "Cube", flavor := "Lime", price := 49,
    description := "cube can", handle := "cube", images := [],
    stock := 10, availableForSale := true, variants := [],
    dimensions := some ⟨10, 10, 10, 0.5⟩ }

/-- A stored product whose handle was NOT derived from its name. -/
def customHandleProduct : Product :=
  { id := "632910392", name := "Grape Brewy", flavor := "Beverages", price := 49,
    description := "", handle := "custom-handle", images := [],
    stock := 5, availableForSale := true, variants := [], dimensions := none }

/-- A partner product payload carrying no handle field (the payload shape
has none) and the title Grape Brewy. -/
def grapePayload : ProductPayload :=
  { id := "632910392", title := "Grape Brewy", body_html := "",
    product_type := "", status := "active", variants := [], imageSrc := "" }

/-- A concrete webhook configuration with a constant digest function. -/
def sampleEnv : WebhookEnv :=
  { serverApiKey := "server-key", serverSecret := "server-secret",
    hmacHex := fun _ _ => "aa" }

/-! ## Store helper lemmas -/

theorem findOneAndUpdate_snd (db : List Order) (oid : String) (f : Order → Order) :
    (findOneAndUpdate db oid f).2 = (findOrder db oid).map f := by
  induction db with
  | nil => simp [findOneAndUpdate, findOrder]
  | cons o rest ih =>
    by_cases h : o.orderId = oid
    · simp [findOneAndUpdate, findOrder, h]
    · simp [findOneAndUpdate, findOrder, h, ih]

theorem findOrder_after_update (db : List Order) (oid : String) (f : Order → Order)
    (hf : ∀ x : Order, x.orderId = oid → (f x).orderId = oid) :
    findOrder (findOneAndUpdate db oid f).1 oid = (findOrder db oid).map f := by
  induction db with
  | nil => simp [findOneAndUpdate, findOrder]
  | cons o rest ih =>
    by_cases h : o.orderId = oid
    · simp [findOneAndUpdate, findOrder, h, hf o h]
    · simp [findOneAndUpdate, findOrder, h, ih]

theorem findOrder_update_of_found (db : List Order) (oid : String)
    (f : Order → Order) (o : Order) (h : findOrder db oid = some o)
    (hf : ∀ x : Order, x.orderId = oid → (f x).orderId = oid) :
    findOrder (findOneAndUpdate db oid f).1 oid = some (f o) := by
  rw [findOrder_after_update db oid f hf, h]
  rfl

theorem findOrder_key (db : List Order) (oid : String) (o : Order)
    (h : findOrder db oid = some o) : o.orderId = oid := by
  induction db with
  | nil => simp [findOrder] at h
  | cons x rest ih =>
    by_cases hx : x.orderId = oid
    · simp [findOrder, hx] at h
      rw [← h]
      exact hx
    · simp [findOrder, hx] at h
      exact ih h

theorem findOrder_append_right (db : List Order) (o : Order)
    (h : findOrder db o.orderId = none) :
    findOrder (db ++ [o]) o.orderId = some o := by
  induction db with
  | nil => simp [findOrder]
  | cons x rest ih =>
    by_cases hx : x.orderId = o.orderId
    · simp [findOrder, hx] at h
    · simp [findOrder, hx] at h ⊢
      exact ih h

/-! ## Validation-loop lemmas -/

theorem calculateOrderTotal_ok (ps : List Product) :
    ∀ (items : List OrderItem) (t : Rat),
      calculateOrderTotal ps items = .ok t → t = itemsTotal ps items := by
  intro items
  induction items with
  | nil =>
    intro t h
    simp [calculateOrderTotal] at h
    simp [itemsTotal, ← h]
  | cons it rest ih =>
    intro t h
    cases hf : findProduct ps it.productId with
    | none => simp [calculateOrderTotal, hf] at h
    | some p =>
      by_cases hav : p.availableForSale
      · cases hr : calculateOrderTotal ps rest with
        | error e => simp [calculateOrderTotal, hf, hav, hr] at h
        | ok t0 =>
          simp [calculateOrderTotal, hf, hav, hr] at h
          simp [itemsTotal, hf, ← h, ih t0 hr, itemsTotal]
      · simp [calculateOrderTotal, hf, hav] at h

theorem buildFasterProducts_ok (ps : List Product) :
    ∀ (items : List OrderItem) (t : Rat) (l : List SRItem),
      buildFasterProducts ps items = .ok (t, l) → t = itemsTotal ps items := by
  intro items
  induction items with
  | nil =>
    intro t l h
    simp [buildFasterProducts] at h
    simp [itemsTotal, ← h.1]
  | cons it rest ih =>
    intro t l h
    cases hf : findProduct ps it.productId with
    | none => simp [buildFasterProducts, hf] at h
    | some p =>
      by_cases hav : p.availableForSale
      · cases hr : buildFasterProducts ps rest with
        | error e => simp [buildFasterProducts, hf, hav, hr] at h
        | ok tl =>
          obtain ⟨t0, l0⟩ := tl
          simp [buildFasterProducts, hf, hav, hr] at h
          simp [itemsTotal, hf, ← h.1, ih t0 l0 hr, itemsTotal]
      · simp [buildFasterProducts, hf, hav] at h

/-! ## Aggregation lemmas -/

theorem foldl_aggStep_weight (ps : List Product) :
    ∀ (items : List OrderItem) (a : Agg),
      (items.foldl (aggStep ps) a).totalWeight
        = a.totalWeight + totalItemsWeight ps items := by
  intro items
  induction items with
  | nil => intro a; simp [totalItemsWeight]
  | cons it rest ih =>
    intro a
    have hstep : (aggStep ps a it).totalWeight = a.totalWeight + itemWeight ps it := by
      cases hf : findProduct ps it.productId with
      | none => simp [aggStep, hf, itemWeight]
      | some p =>
        cases hd : p.dimensions with
        | none => simp [aggStep, hf, hd, itemWeight]
        | some d => simp [aggStep, hf, hd, itemWeight]
    simp only [List.foldl_cons, ih, hstep, totalItemsWeight, List.map_cons, List.sum_cons]
    ring

theorem foldl_aggStep_maxes (ps : List Product) :
    ∀ (items : List OrderItem) (a : Agg),
      a.maxLength ≤ (items.foldl (aggStep ps) a).maxLength
      ∧ a.maxBreadth ≤ (items.foldl (aggStep ps) a).maxBreadth
      ∧ a.maxHeight ≤ (items.foldl (aggStep ps) a).maxHeight := by
  intro items
  induction items with
  | nil => intro a; simp
  | cons it rest ih =>
    intro a
    have hstep : a.maxLength ≤ (aggStep ps a it).maxLength
        ∧ a.maxBreadth ≤ (aggStep ps a it).maxBreadth
        ∧ a.maxHeight ≤ (aggStep ps a it).maxHeight := by
      cases hf : findProduct ps it.productId with
      | none => simp [aggStep, hf]
      | some p =>
        cases hd : p.dimensions with
        | none => simp [aggStep, hf, hd]
        | some d => simp [aggStep, hf, hd, le_max_left]
    obtain ⟨h1, h2, h3⟩ := ih (aggStep ps a it)
    exact ⟨le_trans hstep.1 h1, le_trans hstep.2.1 h2, le_trans hstep.2.2 h3⟩

theorem foldl_aggStep_all_missing (ps : List Product) :
    ∀ (items : List OrderItem) (a : Agg),
      (∀ it ∈ items, findProduct ps it.productId = none) →
      items.foldl (aggStep ps) a = a := by
  intro items
  induction items with
  | nil => intro a _; simp
  | cons it rest ih =>
    intro a hm
    have h1 : findProduct ps it.productId = none := hm it (by simp)
    have h2 : ∀ x ∈ rest, findProduct ps x.productId = none := by
      intro x hx; exact hm x (by simp [hx])
    simp [aggStep, h1, ih a h2]

/-! ## Webhook transform and upsert lemmas -/

theorem toProductUpdateCore_base (pd : ProductPayload) :
    (toProductUpdateCore pd).handle = none
    ∧ (toProductUpdateCore pd).name = pd.title
    ∧ (toProductUpdateCore pd).id = pd.id := by
  rcases pd with ⟨pid, title, bh, pt, st, vars, img⟩
  rcases vars with _ | ⟨pv, vs⟩
  · dsimp only [toProductUpdateCore]
    split_ifs <;> exact ⟨rfl, rfl, rfl⟩
  · rcases pv with ⟨vid, vtitle, vprice, vqty, vsku, vweight, vimg⟩
    rcases vweight with _ | w <;>
      dsimp only [toProductUpdateCore] <;>
      split_ifs <;> exact ⟨rfl, rfl, rfl⟩

theorem toProductUpdate_handle (pd : ProductPayload) (hpd : pd.title ≠ "") :
    (toProductUpdate pd).handle = some (slugify pd.title)
    ∧ (toProductUpdate pd).id = pd.id := by
  obtain ⟨h1, h2, h3⟩ := toProductUpdateCore_base pd
  unfold toProductUpdate withProductHandle
  rw [h1, h2]
  simp [hpd, h3]

theorem toCollectionUpdateCore_base (cd : CollectionPayload) :
    (toCollectionUpdateCore cd).handle = none
    ∧ (toCollectionUpdateCore cd).name = cd.title := by
  rcases cd with ⟨cid, title, bh, img⟩
  dsimp only [toCollectionUpdateCore]
  split_ifs <;> exact ⟨rfl, rfl⟩

theorem findProduct_upsert (u : ProductUpdate) :
    ∀ (ps : List Product) (p : Product), findProduct ps u.id = some p →
      findProduct (upsertProduct ps u) u.id
        = some (applyProductUpdate p u) := by
  intro ps
  induction ps with
  | nil => intro p h; simp [findProduct] at h
  | cons x rest ih =>
    intro p h
    by_cases hx : x.id = u.id
    · simp [findProduct, hx] at h
      subst h
      simp [upsertProduct, hx, findProduct, applyProductUpdate]
    · simp [findProduct, hx] at h
      simp [upsertProduct, hx, findProduct, ih p h]

/-! ## Shipment route lemma -/

theorem createShipmentRoute_paid_ok (ps : List Product) (db : List Order)
    (oid pickup today : String) (o : Order) (srO srS : Option String)
    (hoid : oid ≠ "") (h : findOrder db oid = some o)
    (hp : o.status = .paid) :
    createShipmentRoute ps db oid pickup today (fun _ => .ok (srO, srS))
      = ((findOneAndUpdate db oid (fun _ => { o with
          shiprocketOrderId := srO, shiprocketShipmentId := srS,
          status := .shipped })).1,
         .ok { o with
           shiprocketOrderId := srO, shiprocketShipmentId := srS,
           status := .shipped }) := by
  rw [createShipmentRoute, if_neg hoid, h]
  simp [hp]

/-! ## HMAC middleware lemma -/

theorem verifyHMAC_rejects (env : WebhookEnv) (h : WebhookHeaders) (raw : String)
    (hbad : webhookAuthBad env h raw) :
    ∃ msg, verifyHMAC env h raw = some (401, msg) := by
  unfold verifyHMAC
  split_ifs with h1 h2 h3
  · exact ⟨_, rfl⟩
  · exact ⟨_, rfl⟩
  · exact ⟨_, rfl⟩
  · exfalso
    rcases hbad with hb | hb | hb | hb
    · exact h1 (by simp [hb])
    · exact h1 (by simp [hb])
    · exact h2 hb
    · exact h3 hb

/-! ## Claim C1 -/

/-- C1, counterexample: the claim says no operation moves an order out of
`delivered`, but the admin status patch moves a delivered order to
`paid` (a transition outside the table). -/
theorem statusPatch_escapes_delivered_cex :
    (sampleOrder .delivered).status = .delivered
  ∧ (findOrder (updateOrderStatusRoute [sampleOrder .delivered] "BREWY_1"
      .paid).1 "BREWY_1").map Order.status = some .paid := by
  constructor
  · rfl
  · simp [updateOrderStatusRoute, findOneAndUpdate, findOrder, sampleOrder]

/-- C1, amended: the public mutation routes do not implement the §4.3
state machine.  For an existing order, the admin status patch writes
exactly the requested status, the payment patch writes the requested
status defaulting to `paid`, the shipment patch writes `shipped`, the
faster-checkout webhook writes the payload-derived status, a
validly-signed verify-payment writes `paid`, and a successful cancel
writes `failed` — each regardless of the current status, so transitions
out of `delivered`/`failed` and into `shipped` from `created` are all
reachable; only shipment creation checks a predecessor. -/
theorem mutation_routes_set_status_unconditionally
    (db : List Order) (oid : String) (o : Order)
    (h : findOrder db oid = some o) (hoid : oid ≠ "") :
    (∀ s, (findOrder (updateOrderStatusRoute db oid s).1 oid).map
        Order.status = some s)
  ∧ (∀ pid sig so, (findOrder (updateOrderPaymentRoute db oid pid sig so).1
        oid).map Order.status = some (so.getD .paid))
  ∧ (∀ a b c, (findOrder (updateOrderShipmentRoute db oid a b c).1 oid).map
        Order.status = some .shipped)
  ∧ (∀ b : FasterWebhookBody, b.order_id = oid →
      (findOrder (fasterWebhookRoute db b).1 oid).map Order.status
        = some ((fasterWebhookStatus b).getD o.status))
  ∧ (∀ (hmac : HmacFn) (secret pid : String), pid ≠ "" →
      hmac secret (oid ++ "|" ++ pid) ≠ "" →
      (findOrder (verifyPaymentRoute hmac secret db
          ⟨oid, pid, hmac secret (oid ++ "|" ++ pid), oid⟩).1 oid).map
        Order.status = some .paid)
  ∧ ((findOrder (cancelOrderRoute db oid (.ok ())).1 oid).map
        Order.status = some .failed) := by
  refine ⟨?_, ?_, ?_, ?_, ?_, ?_⟩
  · intro s
    show (findOrder (findOneAndUpdate db oid
        (fun o => { o with status := s })).1 oid).map Order.status = _
    rw [findOrder_update_of_found db oid (fun o => { o with status := s }) o h
        (fun x hx => hx)]
    rfl
  · intro pid sig so
    show (findOrder (findOneAndUpdate db oid
        (fun o => { o with
          razorpayPaymentId := some pid, razorpaySignature := some sig,
          status := so.getD .paid })).1 oid).map Order.status = _
    rw [findOrder_update_of_found db oid (fun o => { o with
          razorpayPaymentId := some pid, razorpaySignature := some sig,
          status := so.getD .paid }) o h (fun x hx => hx)]
    rfl
  · intro a b c
    show (findOrder (findOneAndUpdate db oid
        (fun o => { o with
          shiprocketOrderId := some a, shiprocketShipmentId := some b,
          trackingUrl := some c, status := .shipped })).1 oid).map
        Order.status = _
    rw [findOrder_update_of_found db oid (fun o => { o with
          shiprocketOrderId := some a, shiprocketShipmentId := some b,
          trackingUrl := some c, status := .shipped }) o h (fun x hx => hx)]
    rfl
  · intro b hb
    rw [fasterWebhookRoute, hb, if_neg hoid]
    show (findOrder (findOneAndUpdate db oid
        (fun o => { o with
          status := (fasterWebhookStatus b).getD o.status,
          trackingUrl := if b.tracking_url = "" then o.trackingUrl
            else some b.tracking_url })).1 oid).map Order.status = _
    rw [findOrder_update_of_found db oid (fun o => { o with
          status := (fasterWebhookStatus b).getD o.status,
          trackingUrl := if b.tracking_url = "" then o.trackingUrl
            else some b.tracking_url }) o h (fun x hx => hx)]
    rfl
  · intro hmac secret pid hpid hsig
    rw [verifyPaymentRoute]
    have hguard : ¬ (oid = "" ∨ pid = "" ∨ hmac secret (oid ++ "|" ++ pid) = "") := by
      simp [hoid, hpid, hsig]
    rw [if_neg hguard]
    have hver : verifyRazorpayPayment hmac secret oid pid
        (hmac secret (oid ++ "|" ++ pid)) = true := by
      simp [verifyRazorpayPayment]
    rw [if_pos hver]
    show (findOrder (findOneAndUpdate db (if oid = "" then oid else oid)
        (fun o => { o with
          razorpayPaymentId := some pid,
          razorpaySignature := some (hmac secret (oid ++ "|" ++ pid)),
          status := .paid })).1 oid).map Order.status = _
    rw [if_neg hoid]
    rw [findOrder_update_of_found db oid (fun o => { o with
          razorpayPaymentId := some pid,
          razorpaySignature := some (hmac secret (oid ++ "|" ++ pid)),
          status := .paid }) o h (fun x hx => hx)]
    rfl
  · rw [cancelOrderRoute, if_neg hoid]
    show (findOrder (findOneAndUpdate db oid
        (fun o => { o with status := .failed })).1 oid).map Order.status = _
    rw [findOrder_update_of_found db oid (fun o => { o with status := .failed })
        o h (fun x hx => hx)]
    rfl

/-- C1 witness: instantiating the amended theorem on a concrete store
with one created order and the admin status patch requesting
`delivered`. -/
theorem mutation_routes_set_status_unconditionally_witness :
    (findOrder (updateOrderStatusRoute [sampleOrder .created] "BREWY_1"
      .delivered).1 "BREWY_1").map Order.status = some .delivered :=
  (mutation_routes_set_status_unconditionally [sampleOrder .created] "BREWY_1"
    (sampleOrder .created) (by simp [findOrder, sampleOrder]) (by simp)).1
    .delivered

/-! ## Claim C2 -/

/-- C2, counterexample: the claim (over the cited shipment-marking
operations) says an order not in `paid` cannot be marked shipped, but
the admin `PATCH /:orderId/shipment` route succeeds on an order in
`created` and stores status `shipped`. -/
theorem shipmentPatch_ships_created_order_cex :
    (sampleOrder .created).status = .created
  ∧ (updateOrderShipmentRoute [sampleOrder .created] "BREWY_1" "SR1" "SH1"
      "https://track").2
      = .ok { sampleOrder .created with
          shiprocketOrderId := some "SR1", shiprocketShipmentId := some "SH1",
          trackingUrl := some "https://track", status := .shipped }
  ∧ (findOrder (updateOrderShipmentRoute [sampleOrder .created] "BREWY_1"
      "SR1" "SH1" "https://track").1 "BREWY_1").map Order.status
      = some .shipped := by
  refine ⟨rfl, ?_, ?_⟩
  · simp [updateOrderShipmentRoute, findOneAndUpdate, sampleOrder]
  · simp [updateOrderShipmentRoute, findOneAndUpdate, findOrder, sampleOrder]

/-- C2, amended: the `POST /shipment/create` route does enforce the
precondition — for an existing order not in `paid` it fails with the
400 precondition message and leaves the store untouched, and for a
`paid` order it proceeds to the collaborator and marks the order
shipped on success — but the admin `PATCH /:orderId/shipment` route
writes `shipped` with no precondition check. -/
theorem createShipment_paid_guard
    (ps : List Product) (db : List Order) (oid pickup today : String) (o : Order)
    (hoid : oid ≠ "") (h : findOrder db oid = some o) :
    (o.status ≠ .paid →
      ∀ collab, createShipmentRoute ps db oid pickup today collab
        = (db, .err 400 "Order must be paid before creating shipment"))
  ∧ (o.status = .paid → ∀ srO srS,
      (createShipmentRoute ps db oid pickup today (fun _ => .ok (srO, srS))).2
        = .ok { o with
            shiprocketOrderId := srO, shiprocketShipmentId := srS,
            status := .shipped }
      ∧ (findOrder (createShipmentRoute ps db oid pickup today
          (fun _ => .ok (srO, srS))).1 oid).map Order.status = some .shipped)
  ∧ (∀ a b c, (findOrder (updateOrderShipmentRoute db oid a b c).1 oid).map
      Order.status = some .shipped) := by
  refine ⟨?_, ?_, ?_⟩
  · intro hnp collab
    rw [createShipmentRoute, if_neg hoid, h]
    simp [hnp]
  · intro hp srO srS
    have hOid : o.orderId = oid := findOrder_key db oid o h
    have hroute : createShipmentRoute ps db oid pickup today
        (fun _ => .ok (srO, srS))
        = ((findOneAndUpdate db oid (fun _ => { o with
            shiprocketOrderId := srO, shiprocketShipmentId := srS,
            status := .shipped })).1,
           .ok { o with
             shiprocketOrderId := srO, shiprocketShipmentId := srS,
             status := .shipped }) := by
      rw [createShipmentRoute, if_neg hoid, h]
      simp [hp]
    refine ⟨by rw [hroute], ?_⟩
    rw [hroute]
    rw [findOrder_update_of_found db oid (fun _ => { o with
          shiprocketOrderId := srO, shiprocketShipmentId := srS,
          status := .shipped }) o h (fun x _ => hOid)]
    rfl
  · intro a b c
    show (findOrder (findOneAndUpdate db oid
        (fun o => { o with
          shiprocketOrderId := some a, shiprocketShipmentId := some b,
          trackingUrl := some c, status := .shipped })).1 oid).map
        Order.status = _
    rw [findOrder_update_of_found db oid (fun o => { o with
          shiprocketOrderId := some a, shiprocketShipmentId := some b,
          trackingUrl := some c, status := .shipped }) o h (fun x hx => hx)]
    rfl

/-- C2 witness: the amended theorem applied to a concrete created-status
order (guard branch) and to a concrete paid-status order (proceed
branch). -/
theorem createShipment_paid_guard_witness :
    createShipmentRoute [] [sampleOrder .created] "BREWY_1" "" "2026-01-01"
      (fun _ => .fail "down")
      = ([sampleOrder .created],
         .err 400 "Order must be paid before creating shipment")
  ∧ (findOrder (createShipmentRoute [] [sampleOrder .paid] "BREWY_1" ""
      "2026-01-01" (fun _ => .ok (some "91", some "77"))).1 "BREWY_1").map
      Order.status = some .shipped :=
  ⟨(createShipment_paid_guard [] [sampleOrder .created] "BREWY_1" ""
      "2026-01-01" (sampleOrder .created) (by decide)
      (by simp [findOrder, sampleOrder])).1 (by decide) _,
   ((createShipment_paid_guard [] [sampleOrder .paid] "BREWY_1" ""
      "2026-01-01" (sampleOrder .paid) (by decide)
      (by simp [findOrder, sampleOrder])).2.1 rfl (some "91") (some "77")).2⟩

/-! ## Claim C3 -/

/-- C3: a catalog webhook request with a missing header, a mismatched API
key, or a mismatched body HMAC is rejected with 401 by both the product
and the collection webhook, and the respective store is returned
unchanged — no record is created or modified. -/
theorem webhook_auth_rejects_without_mutation (env : WebhookEnv)
    (serializeP : ProductPayload → String)
    (serializeC : CollectionPayload → String)
    (dbP : List Product) (dbC : List Collection)
    (hp hc : WebhookHeaders) (bodyP : ProductPayload) (bodyC : CollectionPayload)
    (hbadP : webhookAuthBad env hp (serializeP bodyP))
    (hbadC : webhookAuthBad env hc (serializeC bodyC)) :
    ((productWebhookRoute env serializeP dbP hp bodyP).1 = dbP
      ∧ ∃ msg, (productWebhookRoute env serializeP dbP hp bodyP).2
          = .err 401 msg)
  ∧ ((collectionWebhookRoute env serializeC dbC hc bodyC).1 = dbC
      ∧ ∃ msg, (collectionWebhookRoute env serializeC dbC hc bodyC).2
          = .err 401 msg) := by
  obtain ⟨m1, hm1⟩ := verifyHMAC_rejects env hp (serializeP bodyP) hbadP
  obtain ⟨m2, hm2⟩ := verifyHMAC_rejects env hc (serializeC bodyC) hbadC
  refine ⟨⟨?_, ⟨m1, ?_⟩⟩, ⟨?_, ⟨m2, ?_⟩⟩⟩ <;>
    simp [productWebhookRoute, collectionWebhookRoute, hm1, hm2]

/-- C3 witness: the theorem applied with both headers absent on concrete
stores. -/
theorem webhook_auth_rejects_without_mutation_witness :
    (((productWebhookRoute sampleEnv (fun _ => "") [customHandleProduct]
        ⟨none, none⟩ grapePayload).1 = [customHandleProduct]
      ∧ ∃ msg, (productWebhookRoute sampleEnv (fun _ => "")
          [customHandleProduct] ⟨none, none⟩ grapePayload).2 = .err 401 msg)
  ∧ (((collectionWebhookRoute sampleEnv (fun _ => "") [] ⟨none, none⟩
        ⟨"482865238", "Smart Sodas", "", ""⟩).1 = [])
      ∧ ∃ msg, (collectionWebhookRoute sampleEnv (fun _ => "") []
          ⟨none, none⟩ ⟨"482865238", "Smart Sodas", "", ""⟩).2
          = .err 401 msg)) :=
  webhook_auth_rejects_without_mutation sampleEnv (fun _ => "") (fun _ => "")
    [customHandleProduct] [] ⟨none, none⟩ ⟨none, none⟩ grapePayload
    ⟨"482865238", "Smart Sodas", "", ""⟩ (Or.inl (by decide))
    (Or.inl (by decide))

/-! ## Claim C4 -/

/-- C4: when the supplied signature differs from the hex HMAC-SHA256 of
`orderRef + "|" + paymentRef` under the server-held payment secret, the
verify-payment route answers with the invalid-signature error and
returns the order store unchanged — the check precedes any write. -/
theorem verifyPayment_rejects_invalid_signature
    (hmac : HmacFn) (secret : String) (db : List Order) (b : VerifyPaymentBody)
    (h1 : b.razorpayOrderId ≠ "") (h2 : b.razorpayPaymentId ≠ "")
    (h3 : b.razorpaySignature ≠ "")
    (hsig : b.razorpaySignature
      ≠ hmac secret (b.razorpayOrderId ++ "|" ++ b.razorpayPaymentId)) :
    verifyPaymentRoute hmac secret db b
      = (db, .err 400 "Invalid payment signature") := by
  have hver : verifyRazorpayPayment hmac secret b.razorpayOrderId
      b.razorpayPaymentId b.razorpaySignature = false := by
    simp only [verifyRazorpayPayment, beq_eq_false_iff_ne, ne_eq]
    exact fun hh => hsig hh.symm
  rw [verifyPaymentRoute, if_neg (by simp [h1, h2, h3]), if_neg (by simp [hver])]

/-- C4 witness: a concrete digest function, a forged signature, a
one-order store. -/
theorem verifyPayment_rejects_invalid_signature_witness :
    verifyPaymentRoute (fun _ _ => "expected") "sec" [sampleOrder .created]
      ⟨"BREWY_1", "pay_7", "forged", ""⟩
      = ([sampleOrder .created], .err 400 "Invalid payment signature") :=
  verifyPayment_rejects_invalid_signature (fun _ _ => "expected") "sec"
    [sampleOrder .created] ⟨"BREWY_1", "pay_7", "forged", ""⟩
    (by decide) (by decide) (by decide) (by decide)

/-! ## Claim C5 -/

/-- C5: when every item validates, both session-creation routes persist
the order with amount equal to the sum of server-held price times
quantity — the formula never mentions the client-submitted amount
field, so the persisted amount is independent of it. -/
theorem checkout_amount_is_server_priced_total
    (products : List Product) (db : List Order) (items : List OrderItem)
    (customer : Customer) (now cur pp e : String) (a : Rat)
    (r : RazorpayOrderOk) (t tf : Rat) (lf : List SRItem)
    (ha : a ≠ 0) (hpp : pp ≠ "")
    (hv : calculateOrderTotal products items = .ok t)
    (hvf : buildFasterProducts products items = .ok (tf, lf)) :
    (∃ o : Order,
      (createOrderRoute products db ⟨a, cur, some items, some customer⟩ now
        (fun _ => .ok r)).1 = db ++ [o]
      ∧ o.amount = itemsTotal products items ∧ o.status = .created)
  ∧ (∃ o : Order,
      (fasterCreateRoute products db ⟨some items, some customer, pp⟩ now
        (fun _ _ => .fail e)).1 = db ++ [o]
      ∧ o.amount = itemsTotal products items ∧ o.status = .created) := by
  constructor
  · refine ⟨{
      orderId := "ORD_" ++ now, razorpayOrderId := r.id,
      razorpayPaymentId := none, razorpaySignature := none,
      amount := t, currency := if cur = "" then "INR" else cur,
      status := .created, customer := customer, items := items,
      shiprocketOrderId := none, shiprocketShipmentId := none,
      trackingUrl := none }, ?_, ?_, rfl⟩
    · simp [createOrderRoute, ha, hv]
    · exact calculateOrderTotal_ok products items t hv
  · refine ⟨{
      orderId := "BREWY_" ++ now, razorpayOrderId := "BREWY_" ++ now,
      razorpayPaymentId := none, razorpaySignature := none,
      amount := tf, currency := "INR",
      status := .created, customer := customer, items := items,
      shiprocketOrderId := none, shiprocketShipmentId := none,
      trackingUrl := none }, ?_, ?_, rfl⟩
    · simp [fasterCreateRoute, hpp, hvf]
    · exact buildFasterProducts_ok products items tf lf hvf

/-- C5 witness: one grape item at quantity 2, server price 49, client
amount 5 — the persisted amount is 98 in both flows. -/
theorem checkout_amount_is_server_priced_total_witness :
    (∃ o : Order,
      (createOrderRoute [grapeProduct] [] ⟨5, "", some [sampleItem],
        some sampleCustomer⟩ "17" (fun _ => .ok ⟨"rzp_1", "INR"⟩)).1 = [] ++ [o]
      ∧ o.amount = itemsTotal [grapeProduct] [sampleItem] ∧ o.status = .created)
  ∧ (∃ o : Order,
      (fasterCreateRoute [grapeProduct] [] ⟨some [sampleItem],
        some sampleCustomer, "411001"⟩ "17" (fun _ _ => .fail "down")).1
        = [] ++ [o]
      ∧ o.amount = itemsTotal [grapeProduct] [sampleItem]
      ∧ o.status = .created) :=
  checkout_amount_is_server_priced_total [grapeProduct] [] [sampleItem]
    sampleCustomer "17" "" "411001" "down" 5 ⟨"rzp_1", "INR"⟩ 98 98
    [{ name := "Grape Brewy", sku := "prod_grape", units := 2,
       selling_price := 49, discount := 0 }]
    (by norm_num) (by decide)
    (by simp [calculateOrderTotal, findProduct, grapeProduct, sampleItem]
        norm_num)
    (by simp [buildFasterProducts, findProduct, grapeProduct, sampleItem]
        norm_num)

/-! ## Claim C6 -/

/-- C6, counterexample: in the Razorpay create-order flow the collaborator
is called BEFORE any persistence (trace `[collab]` with no save), and on
collaborator failure the store is returned unchanged — no created order
exists afterwards, contradicting the claim for this session-creation
route. -/
theorem createOrder_no_persist_on_collab_failure_cex :
    createOrderRoute [grapeProduct] []
      ⟨98, "INR", some [sampleItem], some sampleCustomer⟩ "17"
      (fun _ => .fail "Failed to create Razorpay order")
      = ([], [Ev.collab], .err 500 "Failed to create Razorpay order") := by
  simp [createOrderRoute, calculateOrderTotal, findProduct, grapeProduct,
    sampleItem]

/-- C6, amended: the faster-checkout session creation does persist the
order in `created` strictly before the collaborator call (the trace
saves then calls), and on collaborator failure the persisted order
remains in the final store; the Razorpay create-order flow instead
calls the collaborator first and persists nothing on failure. -/
theorem fasterCheckout_persists_before_collaborator
    (products : List Product) (db : List Order) (items : List OrderItem)
    (customer : Customer) (pp now e : String) (tf : Rat) (lf : List SRItem)
    (a0 : Rat) (cur0 : String) (ha0 : a0 ≠ 0)
    (hpp : pp ≠ "") (hvf : buildFasterProducts products items = .ok (tf, lf))
    (t0 : Rat) (hv0 : calculateOrderTotal products items = .ok t0) :
    (∃ o : Order,
      fasterCreateRoute products db ⟨some items, some customer, pp⟩ now
        (fun _ _ => .fail e)
        = (db ++ [o], [Ev.save ("BREWY_" ++ now) .created, Ev.collab],
           .err 500 e)
      ∧ o.status = .created ∧ o.orderId = "BREWY_" ++ now)
  ∧ createOrderRoute products db ⟨a0, cur0, some items, some customer⟩ now
      (fun _ => .fail e)
      = (db, [Ev.collab], .err 500 e) := by
  constructor
  · refine ⟨{
      orderId := "BREWY_" ++ now, razorpayOrderId := "BREWY_" ++ now,
      razorpayPaymentId := none, razorpaySignature := none,
      amount := tf, currency := "INR",
      status := .created, customer := customer, items := items,
      shiprocketOrderId := none, shiprocketShipmentId := none,
      trackingUrl := none }, ?_, rfl, rfl⟩
    simp [fasterCreateRoute, hpp, hvf]
  · simp [createOrderRoute, ha0, hv0]

/-- C6 witness: the amended theorem at a concrete store, item list and
failing collaborator. -/
theorem fasterCheckout_persists_before_collaborator_witness :
    (∃ o : Order,
      fasterCreateRoute [grapeProduct] []
        ⟨some [sampleItem], some sampleCustomer, "411001"⟩ "17"
        (fun _ _ => .fail "gateway down")
        = ([] ++ [o], [Ev.save ("BREWY_" ++ "17") .created, Ev.collab],
           .err 500 "gateway down")
      ∧ o.status = .created ∧ o.orderId = "BREWY_" ++ "17")
  ∧ createOrderRoute [grapeProduct] []
      ⟨98, "INR", some [sampleItem], some sampleCustomer⟩ "17"
      (fun _ => .fail "gateway down")
      = ([], [Ev.collab], .err 500 "gateway down") :=
  fasterCheckout_persists_before_collaborator [grapeProduct] [] [sampleItem]
    sampleCustomer "411001" "17" "gateway down" 98
    [{ name := "Grape Brewy", sku := "prod_grape", units := 2,
       selling_price := 49, discount := 0 }]
    98 "INR" (by norm_num) (by decide)
    (by simp [buildFasterProducts, findProduct, grapeProduct, sampleItem]
        norm_num)
    98
    (by simp [calculateOrderTotal, findProduct, grapeProduct, sampleItem]
        norm_num)

/-! ## Claim C7 -/

/-- C7: for every well-formed checkout token request
(`cart_data.items` present, `redirect_url` nonempty), validation
succeeds exactly when every `variant_id` resolves to a stored product
whose availability flag is true; a validation failure produces the
404/400 error REGARDLESS of the collaborator (the token is never
requested), and when validation passes and the collaborator succeeds
the route responds success with the token. -/
theorem generateToken_validates_then_returns_token
    (products : List Product) (items : List CheckoutItemReq)
    (ru tok e : String) (hru : ru ≠ "") :
    (validateCartItems products items = none
       ↔ ∀ it ∈ items, ∃ p,
           findProductByVariant products it.variant_id = some p
           ∧ p.availableForSale = true)
  ∧ (validateCartItems products items = none →
       generateTokenRoute products ⟨some ⟨some items⟩, ru⟩ (.ok tok)
         = .ok (tok, "Checkout token generated successfully")
       ∧ generateTokenRoute products ⟨some ⟨some items⟩, ru⟩ (.fail e)
         = .err 500 e)
  ∧ (∀ n msg, validateCartItems products items = some (n, msg) →
       ∀ collab, generateTokenRoute products ⟨some ⟨some items⟩, ru⟩ collab
         = .err n msg) := by
  refine ⟨?_, ?_, ?_⟩
  · induction items with
    | nil => simp [validateCartItems]
    | cons it rest ih =>
      cases hf : findProductByVariant products it.variant_id with
      | none =>
        refine ⟨fun hv => absurd hv (by simp [validateCartItems, hf]),
          fun hall => ?_⟩
        obtain ⟨p, hp, _⟩ := hall it (by simp)
        simp [hf] at hp
      | some p =>
        by_cases hav : p.availableForSale
        · simp [validateCartItems, hf, hav, ih]
        · refine ⟨fun hv => absurd hv (by simp [validateCartItems, hf, hav]),
            fun hall => ?_⟩
          obtain ⟨q, hq, hqa⟩ := hall it (by simp)
          rw [hf] at hq
          obtain rfl : p = q := by injection hq
          exact absurd hqa hav
  · intro hv
    constructor <;> simp [generateTokenRoute, hru, hv]
  · intro n msg hv collab
    simp [generateTokenRoute, hru, hv]

/-- C7 witness: the documented body — one grape item, the docs redirect
url — against a store holding the available grape product, with a
successful collaborator. -/
theorem generateToken_validates_then_returns_token_witness :
    (validateCartItems [grapeProduct] [⟨"prod_grape", 2⟩] = none
       ↔ ∀ it ∈ [(⟨"prod_grape", 2⟩ : CheckoutItemReq)], ∃ p,
           findProductByVariant [grapeProduct] it.variant_id = some p
           ∧ p.availableForSale = true)
  ∧ (validateCartItems [grapeProduct] [⟨"prod_grape", 2⟩] = none →
       generateTokenRoute [grapeProduct]
         ⟨some ⟨some [⟨"prod_grape", 2⟩]⟩,
          "http://localhost:3000/checkout/success"⟩ (.ok "tok123")
         = .ok ("tok123", "Checkout token generated successfully")
       ∧ generateTokenRoute [grapeProduct]
         ⟨some ⟨some [⟨"prod_grape", 2⟩]⟩,
          "http://localhost:3000/checkout/success"⟩ (.fail "down")
         = .err 500 "down")
  ∧ (∀ n msg,
       validateCartItems [grapeProduct] [⟨"prod_grape", 2⟩] = some (n, msg) →
       ∀ collab, generateTokenRoute [grapeProduct]
         ⟨some ⟨some [⟨"prod_grape", 2⟩]⟩,
          "http://localhost:3000/checkout/success"⟩ collab = .err n msg) :=
  generateToken_validates_then_returns_token [grapeProduct]
    [⟨"prod_grape", 2⟩] "http://localhost:3000/checkout/success" "tok123"
    "down" (by decide)

/-! ## Claim C8 -/

/-- C8, counterexample: a stored product with handle custom-handle,
updated by a partner payload that carries no handle field and has title
Grape Brewy, ends up with handle grape-brewy — the stored handle is NOT
left unchanged, because the guard inspects the update object (which
never has a handle), not the stored record. -/
theorem webhook_upsert_overwrites_handle_cex :
    customHandleProduct.handle = "custom-handle"
  ∧ (upsertProduct [customHandleProduct]
      (toProductUpdate grapePayload)).map Product.handle = ["grape-brewy"]
  ∧ ("grape-brewy" : String) ≠ "custom-handle" := by
  refine ⟨rfl, ?_, by decide⟩
  simp [upsertProduct, toProductUpdate, toProductUpdateCore,
    withProductHandle, applyProductUpdate, customHandleProduct, grapePayload,
    slugify, collapseWS]

/-- C8, amended: slug derivation is deterministic — lowercase with each
whitespace run replaced by one hyphen, so Grape Brewy yields
grape-brewy — but it is NOT applied only as a default: on every product
or collection update whose payload title is nonempty the webhook
transform sets the handle to the freshly derived slug (the payload
shape carries no handle field at all), and the upsert overwrites the
stored handle with it. -/
theorem handle_always_rederived_from_title
    (pd : ProductPayload) (cd : CollectionPayload)
    (ps : List Product) (p : Product)
    (hpd : pd.title ≠ "") (hcd : cd.title ≠ "")
    (hfind : findProduct ps pd.id = some p) :
    (toProductUpdate pd).handle = some (slugify pd.title)
  ∧ (toCollectionUpdate cd).handle = some (slugify cd.title)
  ∧ slugify "Grape Brewy" = "grape-brewy"
  ∧ (findProduct (upsertProduct ps (toProductUpdate pd)) pd.id).map
      Product.handle = some (slugify pd.title) := by
  obtain ⟨hh, hid⟩ := toProductUpdate_handle pd hpd
  refine ⟨hh, ?_, by decide, ?_⟩
  · obtain ⟨h1, h2⟩ := toCollectionUpdateCore_base cd
    unfold toCollectionUpdate withCollectionHandle
    rw [h1, h2]
    simp [hcd]
  · have hfind2 : findProduct ps (toProductUpdate pd).id = some p := by
      rw [hid]; exact hfind
    have := findProduct_upsert (toProductUpdate pd) ps p hfind2
    rw [hid] at this
    rw [this]
    simp [applyProductUpdate, hh]

/-- C8 witness: the amended theorem on the concrete custom-handle store
and the Grape Brewy payload. -/
theorem handle_always_rederived_from_title_witness :
    (toProductUpdate grapePayload).handle = some (slugify "Grape Brewy")
  ∧ (toCollectionUpdate ⟨"482865238", "Smart Sodas", "", ""⟩).handle
      = some (slugify "Smart Sodas")
  ∧ slugify "Grape Brewy" = "grape-brewy"
  ∧ (findProduct (upsertProduct [customHandleProduct]
      (toProductUpdate grapePayload)) "632910392").map Product.handle
      = some (slugify "Grape Brewy") :=
  handle_always_rederived_from_title grapePayload
    ⟨"482865238", "Smart Sodas", "", ""⟩ [customHandleProduct]
    customHandleProduct (by decide) (by decide)
    (by simp [findProduct, customHandleProduct, grapePayload])

/-! ## Claim C9 -/

/-- C9, counterexample: for a single ordered product with stored
dimensions (6, 6, 12), the claimed per-axis maximum of the stored
dimensions is 6 on the length axis, but the code computes 10 — the
aggregation loop initializes every axis at the default 10, which floors
the result even for products WITH stored dimensions. -/
theorem package_dims_floor_cex :
    (aggregateItems [grapeProduct] [sampleItem]).maxLength = 10
  ∧ (claimedPackage [grapeProduct] [sampleItem]).1 = 6
  ∧ ¬ ((10 : Rat) = 6) := by
  refine ⟨?_, ?_, by norm_num⟩
  · simp [aggregateItems, aggStep, findProduct, grapeProduct, sampleItem]
    norm_num
  · simp [claimedPackage, claimedAxis, findProduct, grapeProduct, sampleItem]

/-- C9, amended: the package weight is the sum over items of product
weight times quantity (0.5 default), and each package axis is the
per-axis maximum TAKEN WITH INITIAL VALUE 10, hence never below the
10×10×10 default; on the claim example — dimensions (6,6,12,0.35) at
quantity 2 and (10,10,10,0.5) at quantity 1 — it yields size
(10,10,12) and weight 1.2. -/
theorem package_dims_and_weight_formula
    (ps : List Product) (items : List OrderItem) :
    (aggregateItems ps items).totalWeight = totalItemsWeight ps items
  ∧ 10 ≤ (aggregateItems ps items).maxLength
  ∧ 10 ≤ (aggregateItems ps items).maxBreadth
  ∧ 10 ≤ (aggregateItems ps items).maxHeight
  ∧ (aggregateItems [grapeProduct, cubeProduct]
      [sampleItem, cubeItem]).maxLength = 10
  ∧ (aggregateItems [grapeProduct, cubeProduct]
      [sampleItem, cubeItem]).maxBreadth = 10
  ∧ (aggregateItems [grapeProduct, cubeProduct]
      [sampleItem, cubeItem]).maxHeight = 12
  ∧ (aggregateItems [grapeProduct, cubeProduct]
      [sampleItem, cubeItem]).totalWeight = 1.2 := by
  obtain ⟨hl, hb, hh⟩ :=
    foldl_aggStep_maxes ps items (⟨[], 0, 10, 10, 10⟩ : Agg)
  refine ⟨?_, hl, hb, hh, ?_, ?_, ?_, ?_⟩
  · have := foldl_aggStep_weight ps items (⟨[], 0, 10, 10, 10⟩ : Agg)
    simpa [aggregateItems] using this
  · simp [aggregateItems, aggStep, findProduct, grapeProduct, cubeProduct,
      sampleItem, cubeItem]
    norm_num
  · simp [aggregateItems, aggStep, findProduct, grapeProduct, cubeProduct,
      sampleItem, cubeItem]
    norm_num
  · simp [aggregateItems, aggStep, findProduct, grapeProduct, cubeProduct,
      sampleItem, cubeItem]
    norm_num
  · simp [aggregateItems, aggStep, findProduct, grapeProduct, cubeProduct,
      sampleItem, cubeItem]
    norm_num

/-! ## Claim C10 -/

/-- C10: during shipment creation every line item whose product id no
longer resolves is skipped — it is omitted from order_items and adds
nothing to weight or dimensions — and when ALL products are missing the
route still calls the collaborator with an empty item list, zero weight
and the 10×10×10 default package, and marks the order shipped on
success. -/
theorem missing_products_skipped_shipment_proceeds
    (ps : List Product) (db : List Order) (oid pickup today : String)
    (o : Order) (srO srS : Option String)
    (hoid : oid ≠ "") (h : findOrder db oid = some o) (hp : o.status = .paid)
    (hmiss : ∀ it ∈ o.items, findProduct ps it.productId = none) :
    (∀ (a : Agg) (it : OrderItem), it ∈ o.items → aggStep ps a it = a)
  ∧ aggregateItems ps o.items = (⟨[], 0, 10, 10, 10⟩ : Agg)
  ∧ (createShipmentRoute ps db oid pickup today (fun _ => .ok (srO, srS))).2
      = .ok { o with
          shiprocketOrderId := srO, shiprocketShipmentId := srS,
          status := .shipped }
  ∧ (findOrder (createShipmentRoute ps db oid pickup today
      (fun _ => .ok (srO, srS))).1 oid).map Order.status
      = some .shipped := by
  have hOid : o.orderId = oid := findOrder_key db oid o h
  have hroute := createShipmentRoute_paid_ok ps db oid pickup today o srO srS
    hoid h hp
  refine ⟨?_, ?_, ?_, ?_⟩
  · intro a it hit
    simp [aggStep, hmiss it hit]
  · exact foldl_aggStep_all_missing ps o.items _ hmiss
  · rw [hroute]
  · rw [hroute]
    rw [findOrder_update_of_found db oid (fun _ => { o with
          shiprocketOrderId := srO, shiprocketShipmentId := srS,
          status := .shipped }) o h (fun x _ => hOid)]
    rfl

/-- C10 witness: a paid order whose only item references a product absent
from an empty catalog; the collaborator succeeds. -/
theorem missing_products_skipped_shipment_proceeds_witness :
    (∀ (a : Agg) (it : OrderItem), it ∈ (sampleOrder .paid).items →
      aggStep [] a it = a)
  ∧ aggregateItems [] (sampleOrder .paid).items = (⟨[], 0, 10, 10, 10⟩ : Agg)
  ∧ (createShipmentRoute [] [sampleOrder .paid] "BREWY_1" "" "2026-01-01"
      (fun _ => .ok (some "5", some "6"))).2
      = .ok { sampleOrder .paid with
          shiprocketOrderId := some "5", shiprocketShipmentId := some "6",
          status := .shipped }
  ∧ (findOrder (createShipmentRoute [] [sampleOrder .paid] "BREWY_1" ""
      "2026-01-01" (fun _ => .ok (some "5", some "6"))).1 "BREWY_1").map
      Order.status = some .shipped :=
  missing_products_skipped_shipment_proceeds [] [sampleOrder .paid] "BREWY_1"
    "" "2026-01-01" (sampleOrder .paid) (some "5") (some "6") (by decide)
    (by simp [findOrder, sampleOrder]) rfl
    (by intro it hit; simp [findProduct])

end Brewy
